import Mathlib

/-!
Verification of the recording/audio-routing orchestration subsystem
(`ScreenAndAudioRecorder` in `src/bots/bot_controller/screen_and_audio_recorder.py`).

The external effects of the Python code (spawning processes, sleeping,
reading files) are shallowly embedded: each effectful call's observable
outcome is an explicit parameter (a `LaunchOutcome`, a `TrialOutcome`,
a filesystem association list, ...), and every method becomes a pure,
executable Lean function of the recorder state and those outcomes.
-/

namespace AttendeeRecorder

/-! ### String helpers

Python's `needle in haystack` substring test and `str.lower`, rebuilt on
`List Char` so that everything reduces by `decide`/`rfl`. -/

/-- headMatch n h: the char list n is an initial segment of h. -/
def headMatch : List Char → List Char → Bool
  | [], _ => true
  | _ :: _, [] => false
  | a :: as, b :: bs => a == b && headMatch as bs

/-- subMatch n h: the char list n occurs contiguously somewhere in h. -/
def subMatch (needle : List Char) : List Char → Bool
  | [] => needle.isEmpty
  | b :: bs => headMatch needle (b :: bs) || subMatch needle bs

/-- strHasSub haystack needle: Python's `needle in haystack`. -/
def strHasSub (haystack needle : String) : Bool :=
  subMatch needle.toList haystack.toList

/-- lowerStr s: Python's `s.lower()` (ASCII case, which is all the source uses). -/
def lowerStr (s : String) : String :=
  String.mk (s.toList.map Char.toLower)

/-! ### Failure classifiers

`_is_audio_related_error` (source lines 1492-1513) and `_test_audio_input`
(source lines 1184-1233). -/

/-- audio_error_patterns: the substring list at source lines 1498-1511. -/
def audio_error_patterns : List String :=
  ["no such process",
   "input/output error",
   "alsa",
   "pulse",
   "audio device",
   "default:",
   "cannot open audio device",
   "no such file or directory",
   "chromesink.monitor",
   "device or resource busy",
   "connection timed out",
   "invalid argument"]

/-- Source `_is_audio_related_error`: empty/absent log output (Python's
`if not error_output`) is never audio-related; otherwise scan the lowered
text for any of the fixed substrings. -/
def _is_audio_related_error (error_output : String) : Bool :=
  if error_output = "" then false
  else audio_error_patterns.any (fun pat => strHasSub (lowerStr error_output) pat)

/-- failure_patterns: the definitive-failure substrings at source lines 1207-1214. -/
def failure_patterns : List String :=
  ["input/output error",
   "no such file or directory",
   "no such process",
   "cannot open audio device",
   "connection refused",
   "permission denied"]

/-- Observable outcome of the short `ffmpeg ... -f null -` trial run inside
`_test_audio_input`: whether `subprocess.run` timed out, whether it raised
another exception, and otherwise its exit code and captured stderr. -/
structure TrialOutcome where
  timedOut : Bool
  raised : Bool
  returncode : Int
  stderr : String

/-- Source `_test_audio_input` (lines 1184-1233): timeout or exception gives
False; exit code 0 gives True; a fatal substring in lowered stderr gives
False; then any remaining non-zero exit gives False (making the final
`return True` for non-zero exits unreachable). -/
def _test_audio_input (o : TrialOutcome) : Bool :=
  if o.timedOut then false
  else if o.raised then false
  else if o.returncode = 0 then true
  else if failure_patterns.any (fun pat => strHasSub (lowerStr o.stderr) pat) then false
  else if o.returncode ≠ 0 then false
  else true

/-- Claimed behaviour of `_test_audio_input`, written from the spec's words
("successful if a short trial capture exits zero, OR exits non-zero without
matching a fixed set of fatal error substrings"), for comparison with the
source translation above. -/
def _test_audio_input_claimed (o : TrialOutcome) : Bool :=
  if o.timedOut then false
  else if o.raised then false
  else if o.returncode = 0 then true
  else !(failure_patterns.any (fun pat => strHasSub (lowerStr o.stderr) pat))

/-! ### Launch attempts and `start_recording`

Source lines 1350-1490. A capture launch's observable outcome is whether
the spawned process had already exited when polled after the 2s settle
sleep, with what exit code, and what log text the ffmpeg log file held at
that point (`""` models an absent, unreadable or empty log file, matching
the `error_output = ""` default in the source). -/

/-- Observable outcome of one `subprocess.Popen` + settle + `poll()` round
in `_attempt_recording`. -/
structure LaunchOutcome where
  exitsImmediately : Bool
  exitCode : Int
  logOutput : String

/-- Result of `_attempt_recording`: the process kept running (returned
True), an audio-classified immediate exit with fallback permitted
(returned False), or a raised RuntimeError carrying the exit code. -/
inductive AttemptResult where
  | started
  | fallback
  | failed (code : Int)
deriving DecidableEq, Repr

/-- Source `_attempt_recording` (lines 1425-1490): on an immediate exit,
fall back iff fallback is allowed and the log text is audio-classified,
otherwise raise; a process still alive after the settle period is success.
The re-raised RuntimeError's message ("FFmpeg process failed to start")
contains no "audio", so the `except` clause at lines 1482-1487 always
re-raises it. -/
def _attempt_recording (allow_fallback : Bool) (o : LaunchOutcome) : AttemptResult :=
  if o.exitsImmediately then
    if allow_fallback && _is_audio_related_error o.logOutput then .fallback
    else .failed o.exitCode
  else .started

/-- Message of the RuntimeError raised at source line 1477. -/
def ffmpegFailMsg (code : Int) : String :=
  "FFmpeg process failed to start (exit code: " ++ toString code ++ ")"

/-- Constructor-time configuration (source `__init__`, lines 29-43):
output file path, the target recording dimensions, and the audio-only
flag. -/
structure RecorderCfg where
  file_location : String
  recording_dimensions : Nat × Nat
  audio_only : Bool

/-- Source line 33: the captured screen is the recording dimensions plus a
10px buffer on each axis, to be cropped away later. -/
def screen_dimensions (recording_dimensions : Nat × Nat) : Nat × Nat :=
  (recording_dimensions.1 + 10, recording_dimensions.2 + 10)

/-- Structured content of the crop video filter at source lines 1397 and
1417: output width, output height, and the x/y offset into the captured
frame. -/
structure CropSpec where
  w : Nat
  h : Nat
  x : Nat
  y : Nat
deriving DecidableEq, Repr

/-- Crop parameters used by both video commands: crop back down to the
recording dimensions at offset (10, 10). -/
def video_crop (recording_dimensions : Nat × Nat) : CropSpec :=
  ⟨recording_dimensions.1, recording_dimensions.2, 10, 10⟩

/-- Python f-string `f"crop={w}:{h}:10:10"`. -/
def crop_filter_arg (recording_dimensions : Nat × Nat) : String :=
  "crop=" ++ toString (video_crop recording_dimensions).w ++ ":"
    ++ toString (video_crop recording_dimensions).h ++ ":"
    ++ toString (video_crop recording_dimensions).x ++ ":"
    ++ toString (video_crop recording_dimensions).y

/-- Python f-string `f"{w}x{h}"` for `-video_size`. -/
def dim_str (d : Nat × Nat) : String :=
  toString d.1 ++ "x" ++ toString d.2

/-- Audio-only ffmpeg command (source lines 1366-1379). -/
def audio_only_cmd (cfg : RecorderCfg) (audio_options : List String) : List String :=
  ["ffmpeg", "-y"] ++ audio_options ++
  ["-c:a", "libmp3lame", "-b:a", "192k", "-ar", "44100", "-ac", "1",
   cfg.file_location]

/-- Video+audio ffmpeg command (source lines 1389-1401): audio input first,
padded screen grab, audio resample filter, crop back to target size. -/
def video_audio_cmd (cfg : RecorderCfg) (display_var : String)
    (audio_options : List String) : List String :=
  ["ffmpeg", "-y"] ++ audio_options ++
  ["-thread_queue_size", "4096",
   "-framerate", "30",
   "-video_size", dim_str (screen_dimensions cfg.recording_dimensions),
   "-f", "x11grab", "-draw_mouse", "0", "-probesize", "500k", "-i", display_var,
   "-filter:a", "aresample=async=1:min_hard_comp=0.100:first_pts=0,aformat=sample_fmts=s16:sample_rates=48000:channel_layouts=stereo",
   "-vf", crop_filter_arg cfg.recording_dimensions,
   "-c:v", "libx264", "-preset", "ultrafast", "-pix_fmt", "yuv420p", "-g", "30",
   "-c:a", "aac", "-b:a", "128k", "-movflags", "+faststart",
   cfg.file_location]

/-- Video-only ffmpeg command (source lines 1412-1420). -/
def video_only_cmd (cfg : RecorderCfg) (display_var : String) : List String :=
  ["ffmpeg", "-y", "-thread_queue_size", "4096",
   "-framerate", "30",
   "-video_size", dim_str (screen_dimensions cfg.recording_dimensions),
   "-f", "x11grab", "-draw_mouse", "0", "-probesize", "500k", "-i", display_var,
   "-vf", crop_filter_arg cfg.recording_dimensions,
   "-c:v", "libx264", "-preset", "ultrafast", "-pix_fmt", "yuv420p", "-g", "30",
   cfg.file_location]

/-- One entry of the launch trace produced by `start_recording`: the argv
handed to `subprocess.Popen` and the `allow_fallback` flag of that
`_attempt_recording` call. -/
abbrev LaunchRecord := List String × Bool

/-- Source `start_recording` (lines 1350-1423). Parameters: the result of
`_get_audio_input_options` (`none` = no audio input available), and the
observable outcomes of the first and, when reached, second launch attempt.
Returns the exception outcome (`Except.error msg` models a RuntimeError
propagating to the caller) together with the ordered trace of launch
attempts actually made. -/
def start_recording (cfg : RecorderCfg) (display_var : String)
    (audio_options : Option (List String)) (o1 o2 : LaunchOutcome) :
    Except String Unit × List LaunchRecord :=
  if cfg.audio_only then
    match audio_options with
    | none => (.error "No audio input available for audio-only recording", [])
    | some opts =>
      let cmd := audio_only_cmd cfg opts
      match _attempt_recording false o1 with
      | .failed c => (.error (ffmpegFailMsg c), [(cmd, false)])
      | _ => (.ok (), [(cmd, false)])
  else
    match audio_options with
    | some opts =>
      let cmd1 := video_audio_cmd cfg display_var opts
      match _attempt_recording true o1 with
      | .started => (.ok (), [(cmd1, true)])
      | .failed c => (.error (ffmpegFailMsg c), [(cmd1, true)])
      | .fallback =>
        let cmd2 := video_only_cmd cfg display_var
        match _attempt_recording false o2 with
        | .failed c => (.error (ffmpegFailMsg c), [(cmd1, true), (cmd2, false)])
        | _ => (.ok (), [(cmd1, true), (cmd2, false)])
    | none =>
      let cmd2 := video_only_cmd cfg display_var
      match _attempt_recording false o1 with
      | .failed c => (.error (ffmpegFailMsg c), [(cmd2, false)])
      | _ => (.ok (), [(cmd2, false)])

/-! ### Pause / resume (source lines 1516-1548)

Mutable state touched by these methods: the `paused` flag and whether an
xterm overlay process handle is stored in `self.xterm_proc`. The outcomes
of the two effectful steps of each method are explicit parameters. -/

/-- Pause/resume-relevant recorder state: `xterm` is `self.xterm_proc is
not None`. -/
structure PRState where
  paused : Bool
  xterm : Bool
deriving DecidableEq, Repr

/-- Outcomes of pause_recording's two effectful steps: whether the xterm
`Popen` succeeds, and whether `pactl set-sink-mute ... 1` (run with
`check=True`) succeeds. -/
structure PauseEnv where
  spawnOk : Bool
  muteOk : Bool

/-- Source `pause_recording` (lines 1516-1532). Already paused returns True
unchanged. A `Popen` failure is caught before `self.xterm_proc` is
assigned, so the state is unchanged. If the spawn succeeded but the mute
command fails, the handler catches the error after `self.xterm_proc` was
already assigned and before `self.paused = True`, leaving the overlay
handle set with `paused` still False. -/
def pause_recording (env : PauseEnv) (s : PRState) : Bool × PRState :=
  if s.paused then (true, s)
  else if !env.spawnOk then (false, s)
  else if !env.muteOk then (false, { s with xterm := true })
  else (true, { paused := true, xterm := true })

/-- Outcomes of resume_recording's effectful steps: whether
`xterm_proc.terminate()`/`wait()` succeed, and whether
`pactl set-sink-mute ... 0` succeeds. -/
structure ResumeEnv where
  termOk : Bool
  unmuteOk : Bool

/-- Source `resume_recording` (lines 1535-1548). Not paused returns True
unchanged. A failing `terminate()`/`wait()` (including the AttributeError
when `xterm_proc` is None) is caught before any assignment. If the unmute
command fails, `self.xterm_proc = None` has already run but
`self.paused = False` has not. -/
def resume_recording (env : ResumeEnv) (s : PRState) : Bool × PRState :=
  if !s.paused then (true, s)
  else if !s.xterm || !env.termOk then (false, s)
  else if !env.unmuteOk then (false, { s with xterm := false })
  else (true, { paused := false, xterm := false })

/-! ### stop_recording (source lines 1550-1591) -/

/-- How the ffmpeg process reacts to termination: exits within the 5s
grace period, survives it (TimeoutExpired), or the terminate/wait calls
raise some other exception. -/
inductive TermBehavior where
  | graceful
  | timeout
  | raises
deriving DecidableEq, Repr

/-- Process-control actions stop_recording can perform on the capture
process, in order. -/
inductive StopAction where
  | terminate
  | waitGrace (seconds : Nat)
  | kill
deriving DecidableEq, Repr

/-- Source `stop_recording`: no-op when `self.ffmpeg_proc` is falsy;
otherwise terminate, wait up to 5s, kill on timeout; any exception falls
to a best-effort kill; the `finally` block always sets
`self.ffmpeg_proc = None`. Returns the action trace and whether a capture
process handle remains afterwards. -/
def stop_recording : TermBehavior → Bool → List StopAction × Bool
  | _, false => ([], false)
  | .graceful, true => ([.terminate, .waitGrace 5], false)
  | .timeout, true => ([.terminate, .waitGrace 5, .kill], false)
  | .raises, true => ([.terminate, .kill], false)

/-! ### check_recording_health (source lines 1593-1617)

The method only reads state (`ffmpeg_proc`, `file_location`,
`recording_started_time`) and the filesystem; it assigns nothing, so it is
embedded as a pure function of a read-only snapshot. -/

/-- Read-only snapshot consulted by check_recording_health. -/
structure HealthInput where
  procPresent : Bool
  procExited : Bool
  exitCode : Int
  fileLocationSet : Bool
  fileExists : Bool
  fileSize : Nat
  startedTime : Option Nat
  now : Nat

/-- Python `time.time() - self.recording_started_time if
self.recording_started_time else 0`. -/
def health_duration (h : HealthInput) : Nat :=
  match h.startedTime with
  | some t => h.now - t
  | none => 0

/-- Structured counterpart of the health messages built at source lines
1596-1617. -/
inductive HealthMsg where
  | notRunning
  | exited (code : Int)
  | noData (duration : Nat)
  | healthy (size duration : Nat)
  | notCreated (duration : Nat)
  | startingUp
deriving DecidableEq, Repr

/-- Source `check_recording_health`: unhealthy when no process handle,
when the process has exited, when the existing output file is still empty
after more than 10 seconds, or when `self.file_location` is unset/missing
after more than 5 seconds; healthy otherwise. -/
def check_recording_health (h : HealthInput) : Bool × HealthMsg :=
  if !h.procPresent then (false, .notRunning)
  else if h.procExited then (false, .exited h.exitCode)
  else if h.fileLocationSet && h.fileExists then
    if health_duration h > 10 && h.fileSize = 0 then
      (false, .noData (health_duration h))
    else (true, .healthy h.fileSize (health_duration h))
  else
    if health_duration h > 5 then (false, .notCreated (health_duration h))
    else (true, .startingUp)

/-- Claimed health verdict, written from the spec's words: unhealthy only
for a missing handle, an exited process, or more than 10 seconds elapsed
with zero bytes written; healthy otherwise. -/
def check_health_claimed (h : HealthInput) : Bool :=
  if !h.procPresent then false
  else if h.procExited then false
  else if health_duration h > 10 && (if h.fileExists then h.fileSize else 0) = 0 then false
  else true

/-! ### Filesystem model

cleanup / make_file_seekable manipulate files only through existence
checks, size queries, create-empty, rename/replace and remove, so the
filesystem is an association list from path to file size. -/

/-- Filesystem: list of (path, size) pairs, later entries shadowed by
earlier ones. -/
abbrev FS := List (String × Nat)

/-- fsLookup fs p: the size of the file at p, if it exists. -/
def fsLookup : FS → String → Option Nat
  | [], _ => none
  | (q, n) :: rest, p => if q = p then some n else fsLookup rest p

/-- fsHas fs p: Python's `os.path.exists(p)`. -/
def fsHas (fs : FS) (p : String) : Bool :=
  (fsLookup fs p).isSome

/-- fsRemove fs p: Python's `os.remove(p)`. -/
def fsRemove : FS → String → FS
  | [], _ => []
  | (q, n) :: rest, p =>
    if q = p then fsRemove rest p else (q, n) :: fsRemove rest p

/-- fsWrite fs p n: (over)write the file at p with n bytes. -/
def fsWrite (fs : FS) (p : String) (n : Nat) : FS :=
  (p, n) :: fsRemove fs p

/-- fsRename fs src dst: Python's `os.rename`/`os.replace` (no-op when src
does not exist, which the source never reaches). -/
def fsRename (fs : FS) (src dst : String) : FS :=
  match fsLookup fs src with
  | none => fs
  | some n => fsWrite (fsRemove fs src) dst n

/-! ### get_seekable_path (source lines 1619-1625) -/

/-- Index of the last occurrence of c in a char list, if any. -/
def lastIdx (c : Char) : List Char → Option Nat
  | [] => none
  | a :: as =>
    match lastIdx c as with
    | some i => some (i + 1)
    | none => if a = c then some 0 else none

/-- Python `os.path.splitext`: split at the last dot, provided it comes
after the last path separator and the file's base name has at least one
non-dot character before that dot. -/
def splitext (p : String) : String × String :=
  let cs := p.toList
  match lastIdx '.' cs with
  | none => (p, "")
  | some d =>
    let fstart := match lastIdx '/' cs with
      | none => 0
      | some s => s + 1
    if fstart ≤ d then
      if ((cs.take d).drop fstart).any (fun ch => ch ≠ '.') then
        (String.mk (cs.take d), String.mk (cs.drop d))
      else (p, "")
    else (p, "")

/-- Source `get_seekable_path`: insert ".seekable" before the extension. -/
def get_seekable_path (p : String) : String :=
  (splitext p).1 ++ ".seekable" ++ (splitext p).2

/-! ### make_file_seekable and cleanup (source lines 1627-1741) -/

/-- State consulted by cleanup. `recording_started_time` keeps only
whether it was set (its value is used for logging only). -/
structure CleanupState where
  file_location : Option String
  ffmpeg_log_file : Option String
  recording_started_time : Option Nat
  audio_only : Bool

/-- Observable outcome of the remux subprocess inside make_file_seekable:
`none` models a non-zero ffmpeg exit, `some n` a successful remux whose
output file has n bytes. -/
abbrev RemuxOutcome := Option Nat

/-- Source `make_file_seekable` (lines 1710-1740): run ffmpeg writing the
temp sibling; a non-zero exit raises (no replace attempted); on success
`os.replace` atomically moves the temp file onto the input path, and a
failing replace raises after the temp file was written. Returns the new
filesystem and whether the function returned without raising. -/
def make_file_seekable (fs : FS) (input_path tempfile_path : String)
    (remux : RemuxOutcome) (replaceOk : Bool) : FS × Bool :=
  match remux with
  | none => (fs, false)
  | some n =>
    let fs1 := fsWrite fs tempfile_path n
    if replaceOk then (fsRename fs1 tempfile_path input_path, true)
    else (fs1, false)

/-- Log-file removal at the top of cleanup (source lines 1635-1645):
remove the ffmpeg log file if one was set and it exists (read errors are
swallowed; the removal is modelled as succeeding). -/
def cleanup_log_step (lf : Option String) (fs : FS) : FS :=
  match lf with
  | some l => if fsHas fs l then fsRemove fs l else fs
  | none => fs

/-- Partial-file recovery loop at source lines 1656-1671: rename the
first existing sibling among `.tmp`, `.part`, `~` onto the output path
(the loop breaks after the first successful rename). -/
def cleanup_recover_step (input_path : String) (fs : FS) : FS :=
  if fsHas fs (input_path ++ ".tmp") then
    fsRename fs (input_path ++ ".tmp") input_path
  else if fsHas fs (input_path ++ ".part") then
    fsRename fs (input_path ++ ".part") input_path
  else if fsHas fs (input_path ++ "~") then
    fsRename fs (input_path ++ "~") input_path
  else fs

/-- Body of cleanup after the log-file step (source lines 1647-1708): if
the output path is missing, recover a partial sibling — but only when a
recording start time was recorded — then create an empty placeholder if
the path is still missing; otherwise skip post-processing for audio-only
sessions, for files above 3 GiB and for files below 1 KiB, and invoke
make_file_seekable for the rest, swallowing its errors. The Bool result
records whether make_file_seekable was invoked. -/
def cleanup_main (input_path : String) (rt : Option Nat) (ao : Bool)
    (fs : FS) (remux : RemuxOutcome) (replaceOk : Bool) : FS × Bool :=
  if !fsHas fs input_path then
    match rt with
    | some _ =>
      let fs := cleanup_recover_step input_path fs
      if !fsHas fs input_path then (fsWrite fs input_path 0, false)
      else (fs, false)
    | none => (fsWrite fs input_path 0, false)
  else
    let file_size := (fsLookup fs input_path).getD 0
    if ao then (fs, false)
    else if file_size > 3 * 1024 * 1024 * 1024 then (fs, false)
    else if file_size < 1024 then (fs, false)
    else
      ((make_file_seekable fs input_path (get_seekable_path input_path)
          remux replaceOk).1, true)

/-- Source `cleanup` (lines 1627-1708): nothing to do without a
file_location; otherwise the log-file step followed by the main body. -/
def cleanup (st : CleanupState) (fs : FS) (remux : RemuxOutcome)
    (replaceOk : Bool) : FS × Bool :=
  match st.file_location with
  | none => (fs, false)
  | some input_path =>
    cleanup_main input_path st.recording_started_time st.audio_only
      (cleanup_log_step st.ffmpeg_log_file fs) remux replaceOk

/-! ### Filesystem lemmas -/

theorem fsLookup_fsRemove (fs : FS) (q p : String) :
    fsLookup (fsRemove fs q) p = if q = p then none else fsLookup fs p := by
  induction fs with
  | nil => simp [fsRemove, fsLookup]
  | cons e rest ih =>
    obtain ⟨a, b⟩ := e
    simp only [fsRemove, fsLookup]
    split_ifs <;> simp_all [fsLookup]

theorem fsLookup_fsWrite (fs : FS) (q p : String) (n : Nat) :
    fsLookup (fsWrite fs q n) p = if q = p then some n else fsLookup fs p := by
  by_cases h : q = p <;> simp [fsWrite, fsLookup, fsLookup_fsRemove, h]

theorem fsHas_fsWrite_self (fs : FS) (p : String) (n : Nat) :
    fsHas (fsWrite fs p n) p = true := by
  simp [fsHas, fsLookup_fsWrite]

theorem fsHas_fsWrite_of (fs : FS) (q p : String) (n : Nat)
    (h : fsHas fs p = true) : fsHas (fsWrite fs q n) p = true := by
  by_cases hqp : q = p
  · simp [fsHas, fsLookup_fsWrite, hqp]
  · simpa [fsHas, fsLookup_fsWrite, hqp] using h

theorem fsLookup_fsRename_dst (fs : FS) (src dst : String) (n : Nat)
    (h : fsLookup fs src = some n) :
    fsLookup (fsRename fs src dst) dst = some n := by
  simp [fsRename, h, fsLookup_fsWrite]

theorem fsHas_fsRename_dst (fs : FS) (src dst : String)
    (h : fsHas fs src = true) : fsHas (fsRename fs src dst) dst = true := by
  simp only [fsHas, Option.isSome_iff_exists] at h
  obtain ⟨n, hn⟩ := h
  simp [fsHas, fsLookup_fsRename_dst fs src dst n hn]

/-! ### Claim theorems -/

/-- C9: for every target dimensions (width, height), the capture (screen)
dimensions are (width+10, height+10), the video crop filter crops back to
exactly width x height at offset (10, 10), and the crop region fits inside
the captured frame, so the encoded output dimensions equal the original
target dimensions. -/
theorem c9_pad_then_crop_round_trip (w h : Nat) :
    screen_dimensions (w, h) = (w + 10, h + 10) ∧
    video_crop (w, h) = ⟨w, h, 10, 10⟩ ∧
    (video_crop (w, h)).x + (video_crop (w, h)).w ≤ (screen_dimensions (w, h)).1 ∧
    (video_crop (w, h)).y + (video_crop (w, h)).h ≤ (screen_dimensions (w, h)).2 := by
  refine ⟨rfl, rfl, ?_, ?_⟩ <;> simp [video_crop, screen_dimensions] <;> omega

/-- C2: for an audio-only recorder, when audio-input detection yields no
audio input, start_recording raises the RuntimeError before any capture
process is launched (empty launch trace), and no video-only fallback is
attempted. -/
theorem c2_audio_only_no_input_raises_before_spawn (cfg : RecorderCfg)
    (display_var : String) (o1 o2 : LaunchOutcome)
    (hao : cfg.audio_only = true) :
    start_recording cfg display_var none o1 o2 =
      (.error "No audio input available for audio-only recording", []) := by
  simp [start_recording, hao]

/-- Witness for c2: a concrete audio-only configuration with no audio
input raises with an empty launch trace. -/
theorem c2_audio_only_no_input_raises_before_spawn_witness :
    start_recording ⟨"/tmp/out.mp3", (1920, 1080), true⟩ ":0" none
        ⟨true, 1, ""⟩ ⟨false, 0, ""⟩ =
      (.error "No audio input available for audio-only recording", []) :=
  c2_audio_only_no_input_raises_before_spawn _ _ _ _ rfl

/-- C1: a video+audio attempt whose capture process exits immediately with
audio-classified log output triggers exactly one fallback relaunch in
video-only mode with fallback disallowed; when that relaunch also exits
immediately, the RuntimeError propagates and the launch trace stops at two
entries — no second video+audio retry. -/
theorem c1_one_fallback_then_fatal (cfg : RecorderCfg) (display_var : String)
    (opts : List String) (o1 o2 : LaunchOutcome)
    (hao : cfg.audio_only = false)
    (h1 : o1.exitsImmediately = true)
    (ha : _is_audio_related_error o1.logOutput = true)
    (h2 : o2.exitsImmediately = true) :
    start_recording cfg display_var (some opts) o1 o2 =
      (.error (ffmpegFailMsg o2.exitCode),
       [(video_audio_cmd cfg display_var opts, true),
        (video_only_cmd cfg display_var, false)]) := by
  simp [start_recording, hao, _attempt_recording, h1, ha, h2]

/-- Witness for c1: a concrete recorder whose video+audio launch dies with
a pulse-related log and whose video-only relaunch also dies makes exactly
the two recorded launch attempts and propagates the failure. -/
theorem c1_one_fallback_then_fatal_witness :
    start_recording ⟨"/tmp/out.mp4", (1920, 1080), false⟩ ":0"
        (some ["-f", "pulse", "-i", "ChromeSink.monitor"])
        ⟨true, 1, "pulse: connection refused"⟩ ⟨true, 1, ""⟩ =
      (.error (ffmpegFailMsg 1),
       [(video_audio_cmd ⟨"/tmp/out.mp4", (1920, 1080), false⟩ ":0"
           ["-f", "pulse", "-i", "ChromeSink.monitor"], true),
        (video_only_cmd ⟨"/tmp/out.mp4", (1920, 1080), false⟩ ":0", false)]) :=
  c1_one_fallback_then_fatal _ _ _ _ _ rfl rfl (by decide) rfl

/-- C10: the audio-error classifier returns false on empty (absent or
unreadable) log output, so a video+audio launch that exits immediately
with an empty log raises instead of falling back: the launch trace holds
only the video+audio attempt. -/
theorem c10_empty_log_never_falls_back (cfg : RecorderCfg) (display_var : String)
    (opts : List String) (o1 o2 : LaunchOutcome)
    (hao : cfg.audio_only = false)
    (h1 : o1.exitsImmediately = true)
    (hlog : o1.logOutput = "") :
    _is_audio_related_error o1.logOutput = false ∧
    start_recording cfg display_var (some opts) o1 o2 =
      (.error (ffmpegFailMsg o1.exitCode),
       [(video_audio_cmd cfg display_var opts, true)]) := by
  have hfalse : _is_audio_related_error o1.logOutput = false := by
    simp [_is_audio_related_error, hlog]
  exact ⟨hfalse, by simp [start_recording, hao, _attempt_recording, h1, hfalse]⟩

/-- Witness for c10: a concrete video+audio launch that dies leaving an
empty log raises without any fallback attempt. -/
theorem c10_empty_log_never_falls_back_witness :
    _is_audio_related_error "" = false ∧
    start_recording ⟨"/tmp/out.mp4", (1920, 1080), false⟩ ":0"
        (some ["-f", "pulse", "-i", "ChromeSink.monitor"])
        ⟨true, 187, ""⟩ ⟨false, 0, ""⟩ =
      (.error (ffmpegFailMsg 187),
       [(video_audio_cmd ⟨"/tmp/out.mp4", (1920, 1080), false⟩ ":0"
           ["-f", "pulse", "-i", "ChromeSink.monitor"], true)]) :=
  c10_empty_log_never_falls_back ⟨"/tmp/out.mp4", (1920, 1080), false⟩ ":0"
    ["-f", "pulse", "-i", "ChromeSink.monitor"]
    ⟨true, 187, ""⟩ ⟨false, 0, ""⟩ rfl rfl rfl

/-- Statement of claim C4 as written: the trial is successful iff the test
capture exits zero, or exits non-zero with none of the fatal substrings in
its stderr (`_test_audio_input_claimed`). -/
def test_audio_input_matches_claim : Prop :=
  ∀ o : TrialOutcome, _test_audio_input o = _test_audio_input_claimed o

/-- C4 counterexample: a trial that exits with code 1 and empty stderr (no
fatal substring) is rejected by the source's `_test_audio_input`, while
the claim calls it successful. -/
theorem c4_counterexample : ¬ test_audio_input_matches_claim :=
  fun h => absurd (h ⟨false, false, 1, ""⟩) (by decide)

/-- C4 amended: a fallback audio-input trial is reported successful iff it
neither timed out nor raised and its exit code is zero; every non-zero
exit is rejected (the fatal-substring scan only affects logging, and the
final `return True` for non-zero exits is unreachable). -/
theorem c4_trial_success_iff_exit_zero (o : TrialOutcome) :
    _test_audio_input o =
      (!o.timedOut && !o.raised && decide (o.returncode = 0)) := by
  obtain ⟨t, r, rc, err⟩ := o
  cases t
  · cases r
    · by_cases h : rc = 0
      · simp [_test_audio_input, h]
      · simp only [_test_audio_input, h]
        split <;> simp [h]
    · simp [_test_audio_input]
  · simp [_test_audio_input]

/-- C6: stop_recording is a no-op without a capture process handle, first
attempts graceful termination with a 5-second grace wait, escalates to a
forced kill on timeout or on an exception, and in every outcome the
capture process handle is cleared afterwards. -/
theorem c6_stop_clears_handle (b : TermBehavior) (present : Bool) :
    (stop_recording b present).2 = false ∧
    (present = false → stop_recording b present = ([], false)) ∧
    (present = true →
      (stop_recording b present).1.head? = some .terminate ∧
      (b = .graceful → (stop_recording b present).1 = [.terminate, .waitGrace 5]) ∧
      (b = .timeout →
        (stop_recording b present).1 = [.terminate, .waitGrace 5, .kill]) ∧
      (b = .raises → (stop_recording b present).1 = [.terminate, .kill])) := by
  cases b <;> cases present <;> simp [stop_recording]

/-- Witness for c6: a capture process that survives the grace period is
terminated, waited on for 5 seconds, then killed, and the handle is
cleared. -/
theorem c6_stop_clears_handle_witness :
    (stop_recording .timeout true).1 = [.terminate, .waitGrace 5, .kill] ∧
    (stop_recording .timeout true).2 = false :=
  ⟨(((c6_stop_clears_handle .timeout true).2.2) rfl).2.2.1 rfl,
   (c6_stop_clears_handle .timeout true).1⟩

/-- Statement of claim C5 as written: every pause/resume call preserves
the overlay-iff-paused invariant, and a failing call leaves the recorder
state unchanged (never partially paused). -/
def pause_resume_claim : Prop :=
  (∀ (env : PauseEnv) (s : PRState), s.xterm = s.paused →
     ((pause_recording env s).2.xterm = (pause_recording env s).2.paused ∧
      ((pause_recording env s).1 = false → (pause_recording env s).2 = s))) ∧
  (∀ (env : ResumeEnv) (s : PRState), s.xterm = s.paused →
     ((resume_recording env s).2.xterm = (resume_recording env s).2.paused ∧
      ((resume_recording env s).1 = false → (resume_recording env s).2 = s)))

/-- C5 counterexample: from the clean unpaused state, if the overlay spawn
succeeds but the mute command fails, pause_recording reports failure yet
leaves the overlay handle set with `paused` still false — the invariant is
broken and the state changed. -/
theorem c5_counterexample : ¬ pause_resume_claim :=
  fun h => absurd ((h.1 ⟨true, false⟩ ⟨false, false⟩ rfl).1) (by decide)

/-- C5 amended: pause when already paused and resume when not paused
return success without side effects; a failing overlay spawn leaves the
state unchanged; but a mute failure after a successful spawn leaves the
overlay handle set with `paused` still false, and an unmute failure
during resume clears the overlay handle with `paused` still true — those
two failure paths leave the state partially transitioned. The success
paths re-establish the overlay-iff-paused invariant. -/
theorem c5_pause_resume_amended (penv : PauseEnv) (renv : ResumeEnv)
    (s : PRState) :
    (s.paused = true → pause_recording penv s = (true, s)) ∧
    (s.paused = false → resume_recording renv s = (true, s)) ∧
    (s.paused = false → penv.spawnOk = false →
      pause_recording penv s = (false, s)) ∧
    (s.paused = false → penv.spawnOk = true → penv.muteOk = true →
      pause_recording penv s = (true, ⟨true, true⟩)) ∧
    (s.paused = false → penv.spawnOk = true → penv.muteOk = false →
      pause_recording penv s = (false, { s with xterm := true })) ∧
    (s.paused = true → (s.xterm = false ∨ renv.termOk = false) →
      resume_recording renv s = (false, s)) ∧
    (s.paused = true → s.xterm = true → renv.termOk = true →
      renv.unmuteOk = false → resume_recording renv s = (false, ⟨true, false⟩)) ∧
    (s.paused = true → s.xterm = true → renv.termOk = true →
      renv.unmuteOk = true → resume_recording renv s = (true, ⟨false, false⟩)) :=
  ⟨fun h => by simp [pause_recording, h],
   fun h => by simp [resume_recording, h],
   fun h hsp => by simp [pause_recording, h, hsp],
   fun h hsp hmu => by simp [pause_recording, h, hsp, hmu],
   fun h hsp hmu => by simp [pause_recording, h, hsp, hmu],
   fun h hor => by rcases hor with h2 | h2 <;> simp [resume_recording, h, h2],
   fun h hx ht hu => by simp [resume_recording, h, hx, ht, hu],
   fun h hx ht hu => by simp [resume_recording, h, hx, ht, hu]⟩

/-- Witness for c5_pause_resume_amended: the mute-failure path from the
clean unpaused state produces exactly the partially-transitioned state. -/
theorem c5_pause_resume_amended_witness :
    pause_recording ⟨true, false⟩ ⟨false, false⟩ = (false, ⟨false, true⟩) :=
  (c5_pause_resume_amended ⟨true, false⟩ ⟨true, true⟩
    ⟨false, false⟩).2.2.2.2.1 rfl rfl rfl

/-- Statement of claim C7 as written: check_recording_health is unhealthy
exactly when the handle is missing, the process has exited, or more than
10 seconds have elapsed with zero bytes written to the output file. -/
def health_matches_claim : Prop :=
  ∀ h : HealthInput, (check_recording_health h).1 = check_health_claimed h

/-- C7 counterexample: 7 seconds into a live recording with the output
file not yet created, the source reports unhealthy ("file not created
after 5 seconds") while the claim reports healthy. -/
theorem c7_counterexample : ¬ health_matches_claim :=
  fun hc => absurd (hc ⟨true, false, 0, true, false, 0, some 0, 7⟩) (by decide)

/-- C7 amended: the health verdict is unhealthy when no process handle
exists, when the process has exited, when the existing output file is
still empty after more than 10 seconds, and also when the output path has
not been created after more than 5 seconds; otherwise it is healthy. The
source reads state without mutating it, which the embedding reflects by
being a pure function of a read-only snapshot. -/
theorem c7_health_verdict_amended (h : HealthInput) :
    (check_recording_health h).1 =
      (h.procPresent && !h.procExited &&
        (if h.fileLocationSet && h.fileExists then
           !(health_duration h > 10 && h.fileSize = 0)
         else !(health_duration h > 5))) := by
  cases hpp : h.procPresent <;> cases hpe : h.procExited <;>
    cases hfl : h.fileLocationSet <;> cases hfe : h.fileExists <;>
    by_cases h10 : health_duration h > 10 <;>
    by_cases h5 : health_duration h > 5 <;>
    by_cases h0 : h.fileSize = 0 <;>
    simp [check_recording_health, hpp, hpe, hfl, hfe, h10, h5, h0]

/-- Witness for c7_health_verdict_amended at the counterexample input:
both sides evaluate to false for the 7-second missing-file snapshot. -/
theorem c7_health_verdict_amended_witness :
    (check_recording_health ⟨true, false, 0, true, false, 0, some 0, 7⟩).1 =
      ((true : Bool) && !(false : Bool) &&
        (if (true : Bool) && (false : Bool) then
           !(health_duration ⟨true, false, 0, true, false, 0, some 0, 7⟩ > 10 &&
             (0 : Nat) = 0)
         else !(health_duration ⟨true, false, 0, true, false, 0, some 0, 7⟩ > 5))) :=
  c7_health_verdict_amended ⟨true, false, 0, true, false, 0, some 0, 7⟩

/-- C8: for a non-audio-only cleanup whose output file exists with size n,
the seekability post-processing runs iff 1024 ≤ n and
n ≤ 3·1024³ — both boundary sizes included, strictly smaller or strictly
larger sizes skipped. -/
theorem c8_seekability_size_gates (fs : FS) (remux : RemuxOutcome)
    (replaceOk : Bool) (rt : Option Nat) (p : String) (n : Nat)
    (hl : fsLookup fs p = some n) :
    ((cleanup ⟨some p, none, rt, false⟩ fs remux replaceOk).2 = true ↔
      1024 ≤ n ∧ n ≤ 3 * 1024 * 1024 * 1024) := by
  have hhas : fsHas fs p = true := by simp [fsHas, hl]
  simp only [cleanup, cleanup_log_step, cleanup_main, hhas, hl,
    Bool.not_true, Bool.false_eq_true, if_false, Option.getD_some]
  split_ifs with h3 h1 <;> simp <;> omega

/-- Witness for c8_seekability_size_gates at both boundary sizes: a file
of exactly 1024 bytes and a file of exactly 3·1024³ bytes are both
post-processed. -/
theorem c8_seekability_size_gates_witness :
    ((cleanup ⟨some "/r.mp4", none, some 0, false⟩ [("/r.mp4", 1024)]
        (some 900) true).2 = true ↔
      1024 ≤ 1024 ∧ 1024 ≤ 3 * 1024 * 1024 * 1024) ∧
    ((cleanup ⟨some "/r.mp4", none, some 0, false⟩
        [("/r.mp4", 3 * 1024 * 1024 * 1024)] (some 900) true).2 = true ↔
      1024 ≤ 3 * 1024 * 1024 * 1024 ∧
        3 * 1024 * 1024 * 1024 ≤ 3 * 1024 * 1024 * 1024) :=
  ⟨c8_seekability_size_gates [("/r.mp4", 1024)] (some 900) true (some 0)
     "/r.mp4" 1024 (by decide),
   c8_seekability_size_gates [("/r.mp4", 3 * 1024 * 1024 * 1024)] (some 900)
     true (some 0) "/r.mp4" (3 * 1024 * 1024 * 1024) (by decide)⟩

/-- Statement of claim C3's recovery mechanism as written: whenever the
output path was never produced and a `.tmp` sibling exists, cleanup
renames the sibling into place, so the output path ends up with the
sibling's content. -/
def cleanup_claimed_recovery : Prop :=
  ∀ (st : CleanupState) (fs : FS) (remux : RemuxOutcome) (replaceOk : Bool)
    (p : String),
    st.file_location = some p →
    st.ffmpeg_log_file = none →
    fsHas fs p = false →
    fsHas fs (p ++ ".tmp") = true →
    fsLookup (cleanup st fs remux replaceOk).1 p = fsLookup fs (p ++ ".tmp")

/-- C3 counterexample: when no recording start time was ever recorded,
cleanup skips the variant-recovery loop entirely and creates an empty
placeholder even though a `.tmp` sibling with content exists. -/
theorem c3_counterexample : ¬ cleanup_claimed_recovery :=
  fun hc => absurd
    (hc ⟨some "/rec.mp4", none, none, false⟩ [("/rec.mp4.tmp", 7)] none true
      "/rec.mp4" rfl rfl (by decide) (by decide))
    (by decide)

/-- cleanup_main always leaves the output path present, whatever the
starting filesystem and outcomes. -/
theorem cleanup_main_has (input_path : String) (rt : Option Nat) (ao : Bool)
    (fs : FS) (remux : RemuxOutcome) (replaceOk : Bool) :
    fsHas (cleanup_main input_path rt ao fs remux replaceOk).1 input_path = true := by
  by_cases hhas : fsHas fs input_path = true
  · have hn : ∃ n, fsLookup fs input_path = some n := by
      simpa [fsHas, Option.isSome_iff_exists] using hhas
    obtain ⟨n, hn⟩ := hn
    simp only [cleanup_main, hhas, Bool.not_true, Bool.false_eq_true, if_false, hn,
      Option.getD_some]
    split_ifs with h1 h2 h3
    · exact hhas
    · exact hhas
    · exact hhas
    · cases remux with
      | none => exact hhas
      | some m =>
        simp only [make_file_seekable]
        split_ifs with hrep
        · have : fsLookup (fsWrite fs (get_seekable_path input_path) m)
              (get_seekable_path input_path) = some m := by
            simp [fsLookup_fsWrite]
          exact fsHas_fsRename_dst _ _ _ (by simp [fsHas, this])
        · exact fsHas_fsWrite_of _ _ _ _ hhas
  · have hhas' : fsHas fs input_path = false := by
      cases hfs : fsHas fs input_path
      · rfl
      · exact absurd hfs hhas
    simp only [cleanup_main, hhas', Bool.not_false, if_true]
    cases rt with
    | none => exact fsHas_fsWrite_self _ _ _
    | some t =>
      by_cases hrec : fsHas (cleanup_recover_step input_path fs) input_path = true
      · simp [hrec]
      · have : fsHas (cleanup_recover_step input_path fs) input_path = false := by
          cases hfs : fsHas (cleanup_recover_step input_path fs) input_path
          · rfl
          · exact absurd hfs hrec
        simp [this, fsHas_fsWrite_self]

/-- C3 amended: after cleanup the configured output path always exists —
recovered from a sibling, produced by the remux, or created as an empty
placeholder — and the `.tmp`-sibling recovery happens whenever the output
path is missing AND a recording start time was recorded (without a start
time, cleanup goes straight to the empty placeholder). -/
theorem c3_cleanup_output_always_exists (st : CleanupState) (fs : FS)
    (remux : RemuxOutcome) (replaceOk : Bool) (p : String)
    (hp : st.file_location = some p) :
    fsHas (cleanup st fs remux replaceOk).1 p = true ∧
    (st.ffmpeg_log_file = none → st.recording_started_time ≠ none →
      fsHas fs p = false → fsHas fs (p ++ ".tmp") = true →
      fsLookup (cleanup st fs remux replaceOk).1 p = fsLookup fs (p ++ ".tmp")) := by
  obtain ⟨floc, lf, rt, ao⟩ := st
  simp only at hp
  subst hp
  constructor
  · simpa only [cleanup] using
      cleanup_main_has p rt ao (cleanup_log_step lf fs) remux replaceOk
  · intro hlf hrt hnp htmp
    subst hlf
    obtain ⟨t, hrt'⟩ := Option.ne_none_iff_exists'.mp hrt
    subst hrt'
    have hn : ∃ n, fsLookup fs (p ++ ".tmp") = some n := by
      simpa [fsHas, Option.isSome_iff_exists] using htmp
    obtain ⟨n, hn⟩ := hn
    have hren : fsLookup (fsRename fs (p ++ ".tmp") p) p = some n :=
      fsLookup_fsRename_dst _ _ _ _ hn
    have hrenhas : fsHas (fsRename fs (p ++ ".tmp") p) p = true := by
      simp [fsHas, hren]
    simp only [cleanup, cleanup_log_step, cleanup_main, cleanup_recover_step,
      hnp, htmp, Bool.not_false, if_true, hrenhas, Bool.not_true,
      Bool.false_eq_true, if_false]
    rw [hren, hn]

/-- Witness for c3_cleanup_output_always_exists: a concrete cleanup that
recovers a 7-byte `.tmp` sibling leaves the output path present with the
sibling's size. -/
theorem c3_cleanup_output_always_exists_witness :
    fsHas (cleanup ⟨some "/rec.mp4", none, some 3, false⟩ [("/rec.mp4.tmp", 7)]
        none true).1 "/rec.mp4" = true ∧
    fsLookup (cleanup ⟨some "/rec.mp4", none, some 3, false⟩
        [("/rec.mp4.tmp", 7)] none true).1 "/rec.mp4" =
      fsLookup [("/rec.mp4.tmp", 7)] ("/rec.mp4" ++ ".tmp") :=
  ⟨(c3_cleanup_output_always_exists ⟨some "/rec.mp4", none, some 3, false⟩
      [("/rec.mp4.tmp", 7)] none true "/rec.mp4" rfl).1,
   (c3_cleanup_output_always_exists ⟨some "/rec.mp4", none, some 3, false⟩
      [("/rec.mp4.tmp", 7)] none true "/rec.mp4" rfl).2 rfl
      (by simp) (by decide) (by decide)⟩

end AttendeeRecorder
